import Mathlib

/-!
Shallow embedding of the `manifold-aggr` repository: the embedding batcher
(`src/market.py`), the market store (`src/database.py`), and the websocket
session handler (`src/workers.py`), together with theorems settling the
specification claims about them.
-/

namespace ManifoldAggr

/-! ### Data model (`src/market.py`, class `Market`)

`Market` carries a title, a probability and an optional embedding vector.
Python floats and numpy vectors are modelled as rationals and lists of
rationals: the code only stores and copies these values, never computes
with them. -/

structure Market where
  title : String
  probability : Rat
  embedding : Option (List Rat)
deriving DecidableEq, Repr

/-! ### Embedding batcher (`src/market.py`, `get_embeddings` /
`get_embeddings_single`)

`get_embeddings_single` calls the embedding collaborator once on the list of
titles; the collaborator is a parameter `f` (in the source,
`embeddings_create`), assumed order-preserving and length-preserving only in
the theorems that need it. -/

def get_embeddings_single {α : Type} (f : List String → List α)
    (markets : List Market) : List α :=
  f (markets.map Market.title)

/-- `THRESHOLD = 30000` from `get_embeddings`. -/
def THRESHOLD : Nat := 30000

/-- The batch-packing loop of `get_embeddings` (market.py lines 43-54),
returning the list of spans `markets[ii:i]` passed to
`get_embeddings_single`, in call order.  State: `cum` is
`culmulative_tokens`, `cur` is the pending span `markets[ii:i]` (the records
scanned since the last flush).  On `culmulative_tokens + these_tokens >
THRESHOLD` the pending span is flushed (it may be empty, when the very first
record of a span already overflows), the counter resets to the current
record's own count and the span restarts at that record.  The trailing flush
guard `ii < len(markets)` holds exactly when the pending span is nonempty. -/
def batchLoop (tok : String → Nat) : List Market → Nat → List Market → List (List Market)
  | [], _, cur => if cur = [] then [] else [cur]
  | m :: ms, cum, cur =>
    let t := tok m.title
    if cum + t > THRESHOLD then
      cur :: batchLoop tok ms t [m]
    else
      batchLoop tok ms (cum + t) (cur ++ [m])

/-- The sequence of batches `get_embeddings` passes to
`get_embeddings_single` for a given input list. -/
def get_batches (tok : String → Nat) (markets : List Market) : List (List Market) :=
  batchLoop tok markets 0 []

/-- `get_embeddings` (market.py lines 37-56): `res` is the concatenation of
the collaborator's answers for the batches, in batch order.  `tok` models the
tokenizer collaborator (`len(shtuff.encode(title))`). -/
def get_embeddings {α : Type} (f : List String → List α) (tok : String → Nat)
    (markets : List Market) : List α :=
  ((get_batches tok markets).map (get_embeddings_single f)).flatten

/-! #### Batcher lemmas -/

/-- The batches flushed by the loop concatenate to the pending span followed
by the unscanned records: no record is skipped, duplicated or reordered. -/
theorem batchLoop_flatten (tok : String → Nat) :
    ∀ (ms : List Market) (cum : Nat) (cur : List Market),
      (batchLoop tok ms cum cur).flatten = cur ++ ms := by
  intro ms
  induction ms with
  | nil =>
    intro cum cur
    by_cases h : cur = []
    · simp [batchLoop, h]
    · simp [batchLoop, h]
  | cons m ms ih =>
    intro cum cur
    simp only [batchLoop]
    by_cases h : cum + tok m.title > THRESHOLD
    · rw [if_pos h, List.flatten_cons, ih]
      simp
    · rw [if_neg h, ih]
      simp

theorem get_batches_flatten (tok : String → Nat) (markets : List Market) :
    (get_batches tok markets).flatten = markets := by
  simp [get_batches, batchLoop_flatten]

/-- If the collaborator returns one vector per input title, concatenating its
answers over any batch list yields one vector per batched record. -/
theorem flatten_map_single_length {α : Type} (f : List String → List α)
    (hf : ∀ l, (f l).length = l.length) :
    ∀ bs : List (List Market),
      ((bs.map (get_embeddings_single f)).flatten).length = bs.flatten.length := by
  intro bs
  induction bs with
  | nil => simp
  | cons b bs ih => simp [get_embeddings_single, hf, ih]

/-- When the running count plus any further title already overflows, the
pending span is the next batch flushed. -/
theorem batchLoop_mem_self (tok : String → Nat) (ms : List Market) (cum : Nat)
    (cur : List Market) (hcum : THRESHOLD < cum) (hcur : cur ≠ []) :
    cur ∈ batchLoop tok ms cum cur := by
  cases ms with
  | nil => simp [batchLoop, hcur]
  | cons m ms =>
    simp only [batchLoop]
    rw [if_pos (lt_of_lt_of_le hcum (Nat.le_add_right _ _))]
    exact List.mem_cons_self _ _

/-- A record whose own token count exceeds the budget always ends up flushed
as the singleton batch `[m]`. -/
theorem batchLoop_singleton (tok : String → Nat) (m : Market)
    (hbig : THRESHOLD < tok m.title) :
    ∀ (ms : List Market) (cum : Nat) (cur : List Market), m ∈ ms →
      [m] ∈ batchLoop tok ms cum cur := by
  intro ms
  induction ms with
  | nil => intro cum cur h; cases h
  | cons m' ms ih =>
    intro cum cur hmem
    simp only [batchLoop]
    rcases List.mem_cons.mp hmem with heq | htail
    · subst heq
      rw [if_pos (lt_of_lt_of_le hbig (Nat.le_add_left _ _))]
      exact List.mem_cons_of_mem _
        (batchLoop_mem_self tok ms (tok m.title) [m] hbig (by simp))
    · by_cases h : cum + tok m'.title > THRESHOLD
      · rw [if_pos h]
        exact List.mem_cons_of_mem _ (ih _ _ htail)
      · rw [if_neg h]
        exact ih _ _ htail

/-- C1: for every input list of market records, the concatenation of the
per-batch spans `get_embeddings` passes to the embedding collaborator equals
the original record sequence in the original order (no record skipped,
duplicated or reordered by the batching), and — the collaborator returning
one vector per input — `get_embeddings` returns one embedding per record. -/
theorem c1_batches_concat_and_one_embedding_per_record {α : Type}
    (f : List String → List α) (tok : String → Nat) (markets : List Market)
    (hf : ∀ l, (f l).length = l.length) :
    (get_batches tok markets).flatten = markets ∧
      (get_embeddings f tok markets).length = markets.length := by
  refine ⟨get_batches_flatten tok markets, ?_⟩
  unfold get_embeddings
  rw [flatten_map_single_length f hf, get_batches_flatten]

theorem c1_witness :
    (get_batches String.length [⟨"a", 1, none⟩, ⟨"bb", 0, none⟩]).flatten
        = [⟨"a", 1, none⟩, ⟨"bb", 0, none⟩] ∧
      (get_embeddings (fun l => l.map fun _ => 0) String.length
        [⟨"a", 1, none⟩, ⟨"bb", 0, none⟩]).length = 2 :=
  c1_batches_concat_and_one_embedding_per_record
    (fun l => l.map fun _ => (0 : Nat)) String.length
    [⟨"a", 1, none⟩, ⟨"bb", 0, none⟩] (by intro l; simp)

/-- C2: `get_embeddings` is a total function of its input (it terminates on
every list, in particular when a record's own token count exceeds the 30000
budget), and such an over-budget record is still flushed as its own singleton
batch — no record is dropped, since the batches still concatenate to the full
input. -/
theorem c2_oversized_record_still_singleton_batch (tok : String → Nat)
    (markets : List Market) (m : Market) (hm : m ∈ markets)
    (hbig : THRESHOLD < tok m.title) :
    [m] ∈ get_batches tok markets ∧ (get_batches tok markets).flatten = markets :=
  ⟨batchLoop_singleton tok m hbig markets 0 [] hm, get_batches_flatten tok markets⟩

theorem c2_witness :
    [(⟨"big", 1, none⟩ : Market)] ∈ get_batches (fun _ => 30001) [⟨"big", 1, none⟩] ∧
      (get_batches (fun _ => 30001) [⟨"big", 1, none⟩]).flatten = [⟨"big", 1, none⟩] :=
  c2_oversized_record_still_singleton_batch (fun _ => 30001) [⟨"big", 1, none⟩]
    ⟨"big", 1, none⟩ (by simp) (by decide)

/-! ### Market store (`src/database.py`, class `Database`)

The `markets` table has `id TEXT PRIMARY KEY`; it is modelled as an ordered
list of rows, each a key/record pair with at most one row per key.  Backend
connectivity failures are out of scope (the storage engine is an assumed-
correct collaborator); `db_error_handler` rolls the transaction back before
re-raising, so an operation that fails leaves the table unchanged — each
operation therefore returns its result together with the resulting table. -/

inductive DbErr where
  /-- `KeyError` raised by `get_market` for an absent id. -/
  | notFound
  /-- the psycopg2 unique-violation error an `INSERT` with a duplicate
  primary key raises, rolled back and re-raised by `db_error_handler`. -/
  | alreadyExists
deriving DecidableEq, Repr

abbrev Store := List (String × Market)

/-- `SELECT ... WHERE id = %s` on a table keyed by `id`. -/
def selectById : Store → String → Option Market
  | [], _ => none
  | (k, v) :: rest, idd => if k = idd then some v else selectById rest idd

/-- `Database.add_market` (database.py lines 54-61): `INSERT INTO markets ...`.
A duplicate id violates the primary key, the driver raises, and
`db_error_handler` rolls back and re-raises — the table is unchanged.
(The subsequent `optimize_embeddings` call touches only the index, never the
rows, and is omitted here.) -/
def add_market (idd : String) (market : Market) (db : Store) :
    Except DbErr Unit × Store :=
  if (selectById db idd).isSome then (.error .alreadyExists, db)
  else (.ok (), db ++ [(idd, market)])

/-- `Database.get_market` (database.py lines 63-72): `SELECT title,
probability, embedding ... WHERE id = %s`; when no row matches, `fetchone()`
returns `None` and the method raises `KeyError`. -/
def get_market (idd : String) (db : Store) : Except DbErr Market × Store :=
  match selectById db idd with
  | none => (.error .notFound, db)
  | some m => (.ok m, db)

/-- The row-wise effect of `UPDATE markets SET title = %s, probability = %s,
embedding = %s WHERE id = %s`: every row whose `id` matches has its non-key
fields replaced; every other row is untouched. -/
def updateRows (idd : String) (market : Market) : Store → Store
  | [] => []
  | (k, v) :: rest =>
    (if k = idd then (k, market) else (k, v)) :: updateRows idd market rest

/-- `Database.update_market` (database.py lines 100-106): the UPDATE above,
then commit.  A SQL UPDATE matching no row affects zero rows and succeeds;
the method never raises for an absent id. -/
def update_market (idd : String) (market : Market) (db : Store) :
    Except DbErr Unit × Store :=
  (.ok (), updateRows idd market db)

/-! #### Store lemmas -/

theorem updateRows_absent (idd : String) (market : Market) :
    ∀ db : Store, selectById db idd = none → updateRows idd market db = db := by
  intro db
  induction db with
  | nil => intro _; rfl
  | cons row rest ih =>
    intro h
    obtain ⟨k, v⟩ := row
    simp only [selectById] at h
    by_cases hk : k = idd
    · rw [if_pos hk] at h
      cases h
    · rw [if_neg hk] at h
      simp only [updateRows, if_neg hk, ih h]

theorem selectById_updateRows_self (idd : String) (market : Market) :
    ∀ db : Store, (selectById db idd).isSome →
      selectById (updateRows idd market db) idd = some market := by
  intro db
  induction db with
  | nil => intro h; simp [selectById] at h
  | cons row rest ih =>
    intro h
    obtain ⟨k, v⟩ := row
    simp only [updateRows]
    by_cases hk : k = idd
    · rw [if_pos hk]
      simp only [selectById]
      rw [if_pos hk]
    · simp only [selectById, if_neg hk] at h
      rw [if_neg hk]
      simp only [selectById]
      rw [if_neg hk]
      exact ih h

theorem selectById_updateRows_other (idd j : String) (market : Market) (hj : j ≠ idd) :
    ∀ db : Store, selectById (updateRows idd market db) j = selectById db j := by
  intro db
  induction db with
  | nil => rfl
  | cons row rest ih =>
    obtain ⟨k, v⟩ := row
    simp only [updateRows]
    by_cases hk : k = idd
    · rw [if_pos hk]
      simp only [selectById]
      rw [if_neg (fun h => hj (h.symm.trans hk)), if_neg (fun h => hj (h.symm.trans hk))]
      exact ih
    · rw [if_neg hk]
      simp only [selectById]
      by_cases hkj : k = j
      · rw [if_pos hkj, if_pos hkj]
      · rw [if_neg hkj, if_neg hkj]
        exact ih

/-- C5 counterexample: for the empty store (where `"m1"` is absent),
`update_market` returns success, not `NotFound` — the UPDATE matches zero
rows and commits silently, refuting the claim that an absent id makes the
update operation fail. -/
theorem c5_counterexample :
    ¬ (∀ (db : Store) (idd : String) (m : Market),
        selectById db idd = none →
          (update_market idd m db).1 = Except.error DbErr.notFound) := by
  intro h
  have := h [] "m1" ⟨"t", 1, none⟩ rfl
  simp [update_market] at this

/-- C5 (amended): for every id absent from the store, `update_market`
silently succeeds and leaves the store unchanged — it does not fail with
`NotFound`. -/
theorem c5_update_absent_silently_noops (db : Store) (idd : String) (m : Market)
    (h : selectById db idd = none) :
    update_market idd m db = (Except.ok (), db) := by
  unfold update_market
  rw [updateRows_absent idd m db h]

theorem c5_witness :
    update_market "m1" ⟨"t", 1, none⟩ ([] : Store) = (Except.ok (), ([] : Store)) :=
  c5_update_absent_silently_noops [] "m1" ⟨"t", 1, none⟩ rfl

/-- C8: adding a record under an id already present always fails with
`AlreadyExists` and leaves the store — in particular the originally stored
record — unchanged. -/
theorem c8_duplicate_add_fails_and_preserves (db : Store) (idd : String) (m : Market)
    (h : (selectById db idd).isSome) :
    add_market idd m db = (Except.error DbErr.alreadyExists, db) ∧
      selectById (add_market idd m db).2 idd = selectById db idd := by
  unfold add_market
  rw [if_pos h]
  exact ⟨rfl, rfl⟩

theorem c8_witness :
    add_market "m1" ⟨"new", 0, none⟩ [("m1", ⟨"old", 1, none⟩)]
        = (Except.error DbErr.alreadyExists, [("m1", ⟨"old", 1, none⟩)]) ∧
      selectById (add_market "m1" ⟨"new", 0, none⟩ [("m1", ⟨"old", 1, none⟩)]).2 "m1"
        = selectById [("m1", (⟨"old", 1, none⟩ : Market))] "m1" :=
  c8_duplicate_add_fails_and_preserves [("m1", ⟨"old", 1, none⟩)] "m1"
    ⟨"new", 0, none⟩ (by simp [selectById])

/-! ### Message dispatcher (`src/workers.py`,
`ManifoldAPIWebsocketHandler.handle_message`)

An inbound frame is modelled after JSON parsing: `payload.get(...)` accesses
become `Option` fields (a JSON `null` and an absent key are both `none`). -/

structure Payload where
  /-- `payload.get("id")` -/
  id : Option String
  /-- `payload.get("question")` -/
  question : Option String
  /-- `payload.get("probability")` -/
  probability : Option Rat
deriving DecidableEq, Repr

structure Frame where
  /-- `data.get("type")` -/
  type_ : Option String
  /-- `data.get("topic")` -/
  topic : Option String
  /-- `data["data"]`; an absent key raises `KeyError`, caught and logged -/
  data : Option Payload
deriving DecidableEq, Repr

/-- `ManifoldAPIWebsocketHandler.handle_message` (workers.py lines 151-183).
The argument is `none` for a frame that failed JSON decoding (logged and
discarded).  `self.db.get_market(idd)` raising `KeyError` for an unknown id
is modelled by its `.error` result propagating out of the handler: the
source's `if market is None` branch is unreachable, because `get_market`
raises instead of returning `None`. -/
def handle_message (msg : Option Frame) (db : Store) : Except DbErr Unit × Store :=
  match msg with
  | none => (.ok (), db)
  | some fr =>
    if fr.type_ = some "broadcast" then
      if fr.topic = some "global/updated-contract" then
        match fr.data with
        | none => (.ok (), db)
        | some payload =>
          match payload.id with
          | none => (.ok (), db)
          | some idd =>
            match get_market idd db with
            | (.error e, db') => (.error e, db')
            | (.ok market, db') =>
              let market' : Market :=
                { title := payload.question.getD market.title
                  probability := payload.probability.getD market.probability
                  embedding := market.embedding }
              update_market idd market' db'
      else (.ok (), db)
    else (.ok (), db)

/-- The broadcast frame C6 evaluates the dispatcher at: well-formed, on the
subscribed topic, carrying an id that resolves to no store entry. -/
def c6Frame : Frame :=
  { type_ := some "broadcast"
    topic := some "global/updated-contract"
    data := some { id := some "m1", question := some "Q", probability := some 1 } }

/-- C6 evaluation at the failing input: against the empty store, a
well-formed broadcast frame on the subscribed topic with an unknown id makes
the dispatcher propagate the store's `NotFound` error (the `KeyError` that
`get_market` raises) to its caller instead of logging and discarding the
frame; the store is not mutated. -/
theorem c6_unknown_id_error_propagates :
    handle_message (some c6Frame) ([] : Store)
      = (Except.error DbErr.notFound, ([] : Store)) := by
  rfl

/-- C7: for every broadcast frame on the subscribed topic whose payload id
resolves to a stored record, the dispatch succeeds and the persisted record
takes `title` and `probability` from the payload only where present — an
absent field keeps its prior stored value — while the embedding always keeps
its prior stored value (it is never recomputed by a live update, even when
the title changes); every other id's entry is untouched. -/
theorem c7_known_id_applies_present_fields_only
    (fr : Frame) (pl : Payload) (idd : String) (mk : Market) (db : Store)
    (htype : fr.type_ = some "broadcast")
    (htopic : fr.topic = some "global/updated-contract")
    (hdata : fr.data = some pl) (hid : pl.id = some idd)
    (hmk : selectById db idd = some mk) :
    (handle_message (some fr) db).1 = Except.ok () ∧
      selectById (handle_message (some fr) db).2 idd
        = some { title := pl.question.getD mk.title
                 probability := pl.probability.getD mk.probability
                 embedding := mk.embedding } ∧
      ∀ j, j ≠ idd →
        selectById (handle_message (some fr) db).2 j = selectById db j := by
  have hmsg : handle_message (some fr) db
      = update_market idd
          { title := pl.question.getD mk.title
            probability := pl.probability.getD mk.probability
            embedding := mk.embedding } db := by
    simp only [handle_message, htype, htopic, hdata, hid, if_pos, get_market, hmk]
  rw [hmsg]
  refine ⟨rfl, ?_, ?_⟩
  · exact selectById_updateRows_self idd _ db (by rw [hmk]; rfl)
  · intro j hj
    exact selectById_updateRows_other idd j _ hj db

theorem c7_witness :
    (handle_message
        (some { type_ := some "broadcast"
                topic := some "global/updated-contract"
                data := some { id := some "m1", question := none,
                               probability := some (3 / 4) } })
        [("m1", ⟨"Old", 1 / 2, some [1]⟩), ("m2", ⟨"Other", 0, none⟩)]).1
      = Except.ok () ∧
    selectById
        (handle_message
          (some { type_ := some "broadcast"
                  topic := some "global/updated-contract"
                  data := some { id := some "m1", question := none,
                                 probability := some (3 / 4) } })
          [("m1", ⟨"Old", 1 / 2, some [1]⟩), ("m2", ⟨"Other", 0, none⟩)]).2 "m1"
      = some ⟨"Old", 3 / 4, some [1]⟩ ∧
    ∀ j, j ≠ "m1" →
      selectById
          (handle_message
            (some { type_ := some "broadcast"
                    topic := some "global/updated-contract"
                    data := some { id := some "m1", question := none,
                                   probability := some (3 / 4) } })
            [("m1", ⟨"Old", 1 / 2, some [1]⟩), ("m2", ⟨"Other", 0, none⟩)]).2 j
        = selectById [("m1", ⟨"Old", 1 / 2, some [1]⟩), ("m2", ⟨"Other", 0, none⟩)] j :=
  c7_known_id_applies_present_fields_only
    { type_ := some "broadcast"
      topic := some "global/updated-contract"
      data := some { id := some "m1", question := none, probability := some (3 / 4) } }
    { id := some "m1", question := none, probability := some (3 / 4) }
    "m1" ⟨"Old", 1 / 2, some [1]⟩
    [("m1", ⟨"Old", 1 / 2, some [1]⟩), ("m2", ⟨"Other", 0, none⟩)]
    rfl rfl rfl rfl rfl

/-! ### Session state machine (`src/workers.py`,
`ManifoldAPIWebsocketHandler.run`) -/

/-- The handler fields `run` reads and writes: the `running` re-entrancy
flag and the shared transaction-id counter. -/
structure Handler where
  running : Bool
  txid : Nat
deriving DecidableEq, Repr

inductive RunOutcome where
  /-- the early `return` behind the `if self.running` guard, with a warning -/
  | noopAlreadyRunning
  /-- a `ConnectionError` propagating out of `run` -/
  | raisedConnectionError
  /-- startup succeeded; `run` enters the `while True` listen loop -/
  | enteredListenLoop
deriving DecidableEq, Repr

/-- The startup phase of `run` (workers.py lines 72-95): the re-entrancy
guard, `self.running = True`, `connect()`, the subscribe send (allocating a
transaction id under the lock) and the 5-unit ack wait.  `connectOk` models
whether the transport opens; `ackArrives` whether any frame arrives within
the timeout (a missing frame triggers `disconnect()` then a raised
`ConnectionError`).  The only `self.running = False` assignment in the
source is after the listen loop (line 129), so an exception leaving this
phase does not clear the flag. -/
def run_startup (s : Handler) (connectOk ackArrives : Bool) : RunOutcome × Handler :=
  if s.running then (.noopAlreadyRunning, s)
  else
    let s1 : Handler := { s with running := true }
    if !connectOk then (.raisedConnectionError, s1)
    else
      let s2 : Handler := { s1 with txid := s1.txid + 1 }
      if !ackArrives then (.raisedConnectionError, s2)
      else (.enteredListenLoop, s2)

/-- C10: when `run` raises during startup (the transport fails to open, or no
frame arrives within the 5-unit ack timeout), the `running` flag is left
`True`; every subsequent `run` call on the same handler instance therefore
takes the already-running early return and the session can never be
restarted on that instance. -/
theorem c10_startup_failure_wedges_handler
    (s : Handler) (c a : Bool) (hrun : s.running = false)
    (hfail : c = false ∨ a = false) :
    (run_startup s c a).1 = RunOutcome.raisedConnectionError ∧
      (run_startup s c a).2.running = true ∧
      ∀ c' a', run_startup (run_startup s c a).2 c' a'
        = (RunOutcome.noopAlreadyRunning, (run_startup s c a).2) := by
  rcases hfail with hc | ha
  · subst hc
    refine ⟨?_, ?_, ?_⟩ <;> simp [run_startup, hrun]
  · subst ha
    cases c <;> (refine ⟨?_, ?_, ?_⟩ <;> simp [run_startup, hrun])

theorem c10_witness :
    (run_startup ⟨false, 0⟩ false true).1 = RunOutcome.raisedConnectionError ∧
      (run_startup ⟨false, 0⟩ false true).2.running = true ∧
      ∀ c' a', run_startup (run_startup ⟨false, 0⟩ false true).2 c' a'
        = (RunOutcome.noopAlreadyRunning, (run_startup ⟨false, 0⟩ false true).2) :=
  c10_startup_failure_wedges_handler ⟨false, 0⟩ false true rfl (Or.inl rfl)

/-! #### The connection-error branch of the listen loop
(workers.py lines 99-129) -/

inductive Event where
  /-- `await self.connect()` inside the retry loop -/
  | connectAttempt
  /-- reconnect success: log, `success = True`, `break` -/
  | connected
  /-- `await asyncio.sleep(n)` after a failed attempt -/
  | sleepSeconds (n : Nat)
  /-- a subscribe request sent via `self.send` -/
  | sendSubscribe
  /-- the `while True` loop continues, back to `await self.receive()` -/
  | resumeReceive
  /-- `ping_task.cancel()` -/
  | cancelPingTask
  /-- `handler_task.cancel()` -/
  | cancelHandlerTask
  /-- `self.running = False`; `run` returns -/
  | runReturns
deriving DecidableEq, Repr

/-- The `for _ in range(5)` retry loop (workers.py lines 106-115), as the
event trace it emits and the final value of `success`.  `ok k` models whether
the `k`-th `connect()` call succeeds; a failed attempt is followed by
`await asyncio.sleep(2)`. -/
def reconnectAttempts (ok : Nat → Bool) : Nat → Nat → List Event × Bool
  | _, 0 => ([], false)
  | k, r + 1 =>
    if ok k then ([.connectAttempt, .connected], true)
    else
      let rest := reconnectAttempts ok (k + 1) r
      (.connectAttempt :: .sleepSeconds 2 :: rest.1, rest.2)

/-- What the listen loop does after a `ConnectionClosed`/`ConnectionError`
while listening (workers.py lines 104-129): run the bounded retry loop; on
success the `while True` loop simply continues to the next `receive()` —
nothing is sent on the fresh transport — and on exhaustion the loop breaks,
the ping and handler tasks are cancelled and `run` returns. -/
def handleConnectionError (ok : Nat → Bool) : List Event :=
  let res := reconnectAttempts ok 0 5
  if res.2 then res.1 ++ [.resumeReceive]
  else res.1 ++ [.cancelPingTask, .cancelHandlerTask, .runReturns]

def attemptCount (tr : List Event) : Nat :=
  tr.countP (· == Event.connectAttempt)

theorem reconnectAttempts_count_le (ok : Nat → Bool) :
    ∀ (r k : Nat), attemptCount (reconnectAttempts ok k r).1 ≤ r := by
  intro r
  induction r with
  | zero => intro k; simp [reconnectAttempts, attemptCount]
  | succ r ih =>
    intro k
    by_cases h : ok k
    · simp [reconnectAttempts, h, attemptCount, List.countP_cons]
    · simp only [reconnectAttempts, h, if_neg, Bool.false_eq_true, attemptCount,
        List.countP_cons]
      have := ih (k + 1)
      simp only [attemptCount] at this
      simp
      omega

theorem reconnectAttempts_no_subscribe (ok : Nat → Bool) :
    ∀ (r k : Nat), Event.sendSubscribe ∉ (reconnectAttempts ok k r).1 := by
  intro r
  induction r with
  | zero => intro k; simp [reconnectAttempts]
  | succ r ih =>
    intro k
    by_cases h : ok k
    · simp [reconnectAttempts, h]
    · simp only [reconnectAttempts, if_neg h, List.mem_cons, not_or]
      exact ⟨by simp, by simp, ih (k + 1)⟩

/-- C3 counterexample: with a transport whose first reconnect attempt fails
and whose second succeeds, the session does return to listening, yet the
whole connection-error handling emits no subscribe send: `subscribe()` is
not re-issued on the fresh transport, refuting the claim. -/
theorem c3_counterexample :
    (reconnectAttempts (fun k => k == 1) 0 5).2 = true ∧
      Event.resumeReceive ∈ handleConnectionError (fun k => k == 1) ∧
      Event.sendSubscribe ∉ handleConnectionError (fun k => k == 1) := by
  decide

/-- C3 (amended): after a connection failure while listening, the first
reconnect attempt that succeeds returns the session to the Listening state
directly — the receive loop resumes on the fresh transport — without
re-issuing `subscribe()`: no subscribe request is sent anywhere in the
reconnect handling. -/
theorem c3_reconnect_resumes_without_resubscribe (ok : Nat → Bool)
    (hsucc : (reconnectAttempts ok 0 5).2 = true) :
    Event.resumeReceive ∈ handleConnectionError ok ∧
      Event.sendSubscribe ∉ handleConnectionError ok := by
  have htr : handleConnectionError ok
      = (reconnectAttempts ok 0 5).1 ++ [Event.resumeReceive] := by
    unfold handleConnectionError
    simp [hsucc]
  rw [htr]
  constructor
  · exact List.mem_append_right _ (by simp)
  · intro hmem
    rcases List.mem_append.mp hmem with h | h
    · exact reconnectAttempts_no_subscribe ok 5 0 h
    · simp at h

theorem c3_witness :
    Event.resumeReceive ∈ handleConnectionError (fun k => k == 2) ∧
      Event.sendSubscribe ∉ handleConnectionError (fun k => k == 2) :=
  c3_reconnect_resumes_without_resubscribe (fun k => k == 2) (by decide)

/-- C4: a connection error while listening triggers at most 5 sequential
reconnect attempts, and when every attempt fails the handling is exactly the
5 attempts, each followed by the fixed 2-unit delay, after which the receive
loop exits, the keepalive and dispatch tasks are cancelled and `run`
returns — no unbounded retry. -/
theorem c4_reconnect_bounded_then_terminates (ok : Nat → Bool) :
    attemptCount (handleConnectionError ok) ≤ 5 ∧
      ((∀ k, k < 5 → ok k = false) →
        handleConnectionError ok =
          [.connectAttempt, .sleepSeconds 2, .connectAttempt, .sleepSeconds 2,
           .connectAttempt, .sleepSeconds 2, .connectAttempt, .sleepSeconds 2,
           .connectAttempt, .sleepSeconds 2,
           .cancelPingTask, .cancelHandlerTask, .runReturns]) := by
  constructor
  · have hle := reconnectAttempts_count_le ok 5 0
    unfold handleConnectionError
    by_cases h : (reconnectAttempts ok 0 5).2
    · rw [if_pos h]
      simpa [attemptCount, List.countP_append] using hle
    · rw [if_neg h]
      simpa [attemptCount, List.countP_append] using hle
  · intro h
    have h0 := h 0 (by omega)
    have h1 := h 1 (by omega)
    have h2 := h 2 (by omega)
    have h3 := h 3 (by omega)
    have h4 := h 4 (by omega)
    simp [handleConnectionError, reconnectAttempts, h0, h1, h2, h3, h4]

theorem c4_witness :
    attemptCount (handleConnectionError (fun _ => false)) ≤ 5 ∧
      handleConnectionError (fun _ => false) =
        [.connectAttempt, .sleepSeconds 2, .connectAttempt, .sleepSeconds 2,
         .connectAttempt, .sleepSeconds 2, .connectAttempt, .sleepSeconds 2,
         .connectAttempt, .sleepSeconds 2,
         .cancelPingTask, .cancelHandlerTask, .runReturns] :=
  ⟨(c4_reconnect_bounded_then_terminates (fun _ => false)).1,
    (c4_reconnect_bounded_then_terminates (fun _ => false)).2 (fun _ _ => rfl)⟩

/-! ### Outgoing sends and the transaction-id lock (`src/workers.py`,
`ManifoldAPIWebsocketHandler.send`)

The body of `send` as a sequence of atomic steps, executed by two concurrent
callers (e.g. the keepalive ping and a subscribe) sharing one handler.  The
`async with self.txid_lock` block covers only the id allocation and the
message construction; the `await self.connection.send(message_)` awaits
AFTER the block, outside the lock. -/

inductive SendInstr where
  /-- `if not self.connection.open: raise ...` (reads only) -/
  | checkOpen
  /-- entering `async with self.txid_lock` -/
  | acquireLock
  /-- `self.txid += 1; message_ = message(self.txid)` -/
  | allocAndBuild
  /-- leaving the `async with` block -/
  | releaseLock
  /-- `await self.connection.send(message_)` -/
  | transmit
deriving DecidableEq, Repr

def sendProgram : List SendInstr :=
  [.checkOpen, .acquireLock, .allocAndBuild, .releaseLock, .transmit]

/-- Shared state of two tasks A (`who = false`) and B (`who = true`) each
executing `send` once: `lockHolder` is `txid_lock`, `txid` the shared
counter, `wire` the order in which built messages reach the transport (each
message identified by the txid it carries), `pcA`/`pcB` the tasks' positions
in `sendProgram`, `regA`/`regB` each task's built message. -/
structure SendState where
  lockHolder : Option Bool
  txid : Nat
  wire : List Nat
  pcA : Nat
  pcB : Nat
  regA : Nat
  regB : Nat
deriving DecidableEq, Repr

def sendInit : SendState := ⟨none, 0, [], 0, 0, 0, 0⟩

/-- One atomic step of task `who`: `none` when the task is finished or
blocked (acquiring a held lock).  Only `acquireLock` can block;
`allocAndBuild` runs with the lock held by construction of `sendProgram`,
and `transmit` neither requires nor touches the lock. -/
def stepSend (s : SendState) (who : Bool) : Option SendState :=
  let pc := if who then s.pcB else s.pcA
  match sendProgram[pc]? with
  | none => none
  | some instr =>
    let s' := if who then { s with pcB := s.pcB + 1 } else { s with pcA := s.pcA + 1 }
    match instr with
    | .checkOpen => some s'
    | .acquireLock =>
      if s.lockHolder = none then some { s' with lockHolder := some who } else none
    | .allocAndBuild =>
      if s.lockHolder = some who then
        some (if who then { s' with txid := s.txid + 1, regB := s.txid + 1 }
              else { s' with txid := s.txid + 1, regA := s.txid + 1 })
      else none
    | .releaseLock =>
      if s.lockHolder = some who then some { s' with lockHolder := none } else none
    | .transmit =>
      some { s' with wire := s.wire ++ [if who then s.regB else s.regA] }

/-- Run a schedule (an interleaving of the two tasks' steps). -/
def runSched : List Bool → SendState → Option SendState
  | [], s => some s
  | w :: ws, s => (stepSend s w).bind (runSched ws)

/-- C9 counterexample: a valid interleaving of two senders in which task A
allocates txid 1, releases the lock, task B then allocates txid 2 and
transmits, and only afterwards does A transmit — so A reaches its `transmit`
step with the lock free (first conjunct: the reached state has `lockHolder =
none` and A positioned at `transmit`), and the wire carries the message with
txid 2 before the message with txid 1 (second conjunct).  Id allocation and
transmission are not atomic together, refuting the claim. -/
theorem c9_counterexample :
    runSched [false, false, false, false, true, true, true, true, true] sendInit
        = some ⟨none, 2, [2], 4, 5, 1, 2⟩ ∧
      stepSend ⟨none, 2, [2], 4, 5, 1, 2⟩ false = some ⟨none, 2, [2, 1], 5, 5, 1, 2⟩ := by
  exact ⟨rfl, rfl⟩

/-- C9 (amended): the mutual-exclusion guard is held across the
transaction-id allocation and the message construction — a task at
`allocAndBuild` is blocked whenever it does not hold the lock, and proceeds
when it does — but the transmission happens after the guard is released:
task A positioned at `transmit` proceeds without the lock and sends its
previously built message. -/
theorem c9_lock_covers_alloc_but_not_transmit (s : SendState)
    (hfree : s.lockHolder ≠ some false) :
    stepSend { s with pcA := 2 } false = none ∧
      (stepSend { s with pcA := 2, lockHolder := some false } false).isSome = true ∧
      (stepSend { s with pcA := 4 } false).map SendState.wire
        = some (s.wire ++ [s.regA]) := by
  refine ⟨?_, ?_, ?_⟩
  · simp [stepSend, sendProgram, hfree]
  · simp [stepSend, sendProgram]
  · simp [stepSend, sendProgram]

theorem c9_witness :
    stepSend { sendInit with pcA := 2 } false = none ∧
      (stepSend { sendInit with pcA := 2, lockHolder := some false } false).isSome = true ∧
      (stepSend { sendInit with pcA := 4 } false).map SendState.wire = some ([] ++ [0]) :=
  c9_lock_covers_alloc_but_not_transmit sendInit (by simp [sendInit])

end ManifoldAggr
